import Mathlib

/-!
Verification development for the content versioning and publish/delete workflow of
the `ContentService` class (src/cms-api/src/modules/content/content.service.ts).

The TypeScript service is shallowly embedded: mongoose documents become Lean
structures, the three mongo collections (content, content versions, published
content) become lists threaded through the flows as an explicit `CmsDB` state,
timestamps (`new Date()`) become a `now : Nat` parameter, and mongoose ObjectIds
become plain strings supplied by the caller (`freshId`).  JavaScript failures
(a thrown TypeError on a null dereference) and the spec-modelled NotFound of the
shared CRUD base are represented with `Except JsErr`.
-/

/-- Error kinds surfaced by the flows: `notFound` from the spec-modelled base
service lookup, `typeError` for a JavaScript null dereference. -/
inductive JsErr where
  | notFound
  | typeError
deriving DecidableEq, Repr

/-- A child reference as stored in `childItems` / `publishedChildItems`:
`content` is the referenced id, `refPath` the kind tag of the referenced model. -/
structure RefContent where
  content : String
  refPath : String
deriving DecidableEq, Repr

/-- A working/draft content document (the fields of `IContentDocument` used by the
service).  Nullable mongoose fields are `Option`; timestamps are `Option Nat`. -/
structure Content where
  _id : String
  name : String
  properties : String
  parentId : Option String
  parentPath : Option String
  ancestors : List String
  childItems : List RefContent
  publishedChildItems : List RefContent
  hasChildren : Bool
  isPublished : Bool
  isDirty : Bool
  created : Option Nat
  changed : Option Nat
  published : Option Nat
  deleted : Option Nat
  isDeleted : Bool
deriving DecidableEq, Repr

/-- A content version row: the object spread of the source content with `_id`
overridden by a freshly generated id and a `contentId` back-reference
(`createPageVersion`).  `snapshot` holds the spread content fields. -/
structure ContentVersion where
  _id : String
  contentId : String
  snapshot : Content
deriving DecidableEq, Repr

/-- A published content row: the object spread of the source content (so its
`_id` stays the source content's id) plus `contentId` and `contentVersionId`
(`createPublishedContent`).  `snapshot` holds the spread content fields,
including the `isDeleted` / `deleted` flags touched by soft deletion. -/
structure PublishedContent where
  _id : String
  contentId : String
  contentVersionId : String
  snapshot : Content
deriving DecidableEq, Repr

/-- The three mongo collections the service writes to. -/
structure CmsDB where
  contents : List Content
  versions : List ContentVersion
  published : List PublishedContent
deriving DecidableEq, Repr

/-- Mongoose `document.save()` for a content document: `_id` is the unique key,
so saving replaces the stored row with that id, inserting when absent. -/
def saveContent (c : Content) (l : List Content) : List Content :=
  if l.any (fun d => d._id == c._id) then
    l.map (fun d => if d._id == c._id then c else d)
  else l ++ [c]

/-- Mongoose `document.save()` for a published content document. -/
def savePublished (p : PublishedContent) (l : List PublishedContent) :
    List PublishedContent :=
  if l.any (fun d => d._id == p._id) then
    l.map (fun d => if d._id == p._id then p else d)
  else l ++ [p]

/-- Remove the first element satisfying `pred` (mongo `findOneAndDelete`: at most
one row can match an `_id` filter, and absence is tolerated). -/
def eraseFirstP (pred : α → Bool) : List α → List α
  | [] => []
  | x :: xs => if pred x then xs else x :: eraseFirstP pred xs

/-- Modelled from the spec: `BaseService.getModelById` lives in the shared CRUD
base (src/cms-api/src/modules/shared/base.service.ts), which is not under src/.
The spec says the lifecycle flows "Load current Content by id; fails with
NotFound if absent" and that the Create flow's parent lookup is a "no-op
producing null parent if parentId is null", with NotFound defined as
"referenced Content/parent does not exist". -/
def getModelById (id : Option String) (l : List Content) :
    Except JsErr (Option Content) :=
  match id with
  | none => .ok none
  | some s =>
    match l.find? (fun d => d._id == s) with
    | some c => .ok (some c)
    | none => .error .notFound

/-- A JavaScript string-typed value as it can actually arrive at runtime. -/
inductive JsStr where
  | undef
  | null
  | str (s : String)
deriving DecidableEq, Repr

/-- JavaScript falsiness of such a value (`!id`): undefined, null and the empty
string are falsy. -/
def jsFalsy : JsStr → Bool
  | .undef => true
  | .null => true
  | .str s => s == ""

/-- Mongo `findOne` with an `_id` filter.  An undefined key is stripped from the
filter, so the query matches the first stored document; a null key matches only
documents whose `_id` is null or missing, and every stored document carries a
string ObjectId `_id`, so it matches none. -/
def mongoFindOneContent (key : JsStr) (l : List Content) : Option Content :=
  match key with
  | .undef => l.head?
  | .null => l.find? (fun _ => false)
  | .str s => l.find? (fun d => d._id == s)

/-- Mongo `findOne` on the published collection, same key semantics. -/
def mongoFindOnePublished (key : JsStr) (l : List PublishedContent) :
    Option PublishedContent :=
  match key with
  | .undef => l.head?
  | .null => l.find? (fun _ => false)
  | .str s => l.find? (fun d => d._id == s)

/-- One entry of a populated result: the raw child reference plus the resolved
referenced document, `none` when the target is absent or deleted (the populate
`match` filter `isDeleted: false`). -/
structure PopulatedChild (α : Type) where
  item : RefContent
  resolved : Option α
deriving DecidableEq, Repr

/-- A document with its direct child references resolved inline. -/
structure PopulatedResult (α : Type) where
  doc : α
  children : List (PopulatedChild α)
deriving DecidableEq, Repr

/-- Embeds `getPopulatedContentById`: normalizes a falsy id to null, finds the content
row and populates `childItems.content` filtered by `isDeleted: false`. -/
def getPopulatedContentById (id : JsStr) (db : CmsDB) :
    Option (PopulatedResult Content) :=
  let key := if jsFalsy id then JsStr.null else id
  (mongoFindOneContent key db.contents).map (fun c =>
    { doc := c
      children := c.childItems.map (fun it =>
        { item := it
          resolved := (db.contents.find? (fun d => d._id == it.content)).bind
            (fun d => if d.isDeleted then none else some d) }) })

/-- Embeds `getPopulatedPublishedContentById`: same normalization, on the published
collection, populating `publishedChildItems.content`. -/
def getPopulatedPublishedContentById (id : JsStr) (db : CmsDB) :
    Option (PopulatedResult PublishedContent) :=
  let key := if jsFalsy id then JsStr.null else id
  (mongoFindOnePublished key db.published).map (fun p =>
    { doc := p
      children := p.snapshot.publishedChildItems.map (fun it =>
        { item := it
          resolved := (db.published.find? (fun d => d._id == it.content)).bind
            (fun d => if d.snapshot.isDeleted then none else some d) }) })

/-- Embeds `createContent`: stamps `created`/`changed`, sets `parentId`, and derives
`parentPath`/`ancestors` from the parent.  The parentPath conditional mirrors
the JavaScript truthiness test `parentContent.parentPath ? ... : ...`, under
which an empty string parentPath takes the null branch. -/
def createContent (newContent : Content) (parentContent : Option Content)
    (now : Nat) : Content :=
  match parentContent with
  | some parent =>
    { newContent with
        created := some now
        changed := some now
        parentId := some parent._id
        parentPath := some (match parent.parentPath with
          | some s =>
            if s == "" then "," ++ parent._id ++ ","
            else s ++ parent._id ++ ","
          | none => "," ++ parent._id ++ ",")
        ancestors := parent.ancestors ++ [parent._id] }
  | none =>
    { newContent with
        created := some now
        changed := some now
        parentId := none
        parentPath := none
        ancestors := [] }

/-- Embeds `executeCreateContentFlow`: look up the parent, create the content, persist. -/
def executeCreateContentFlow (content : Content) (now : Nat) (db : CmsDB) :
    CmsDB × Except JsErr Content :=
  match getModelById content.parentId db.contents with
  | .error e => (db, .error e)
  | .ok parentContent =>
    let savedContent := createContent content parentContent now
    ({ db with contents := saveContent savedContent db.contents }, .ok savedContent)

/-- Embeds `updateHasChildren`: returns the persisted write (if any) together with the
returned boolean.  A null argument returns false; an already-true flag returns
true without touching the document; otherwise it stamps `changed`, sets the
flag, saves, and returns the saved flag. -/
def updateHasChildren (content : Option Content) (now : Nat) :
    Option Content × Bool :=
  match content with
  | none => (none, false)
  | some c =>
    if c.hasChildren then (none, true)
    else
      let saved := { c with changed := some now, hasChildren := true }
      (some saved, saved.hasChildren)

/-- Modelled from the spec: the content-kind identifiers `cmsPage`, `cmsBlock`,
`cmsMedia` and their published counterparts are string constants exported by
model files (src/cms-api/src/modules/page, block, media) that are not under
src/; the spec gives the fixed table page to publishedPage, block to
publishedBlock, media to publishedMedia. -/
def cmsPage : String := "page"

def cmsBlock : String := "block"

def cmsMedia : String := "media"

def cmsPublishedPage : String := "publishedPage"

def cmsPublishedBlock : String := "publishedBlock"

def cmsPublishedMedia : String := "publishedMedia"

/-- Embeds `getPublishedRefPath`: the switch over reference kinds, default pass-through. -/
def getPublishedRefPath (refPath : String) : String :=
  if refPath == cmsPage then cmsPublishedPage
  else if refPath == cmsBlock then cmsPublishedBlock
  else if refPath == cmsMedia then cmsPublishedMedia
  else refPath

/-- Embeds `getPublishedChildItems`: rewrite each child reference's kind to its
published counterpart, keeping the content reference. -/
def getPublishedChildItems (currentItems : List RefContent) : List RefContent :=
  currentItems.map (fun item =>
    { content := item.content, refPath := getPublishedRefPath item.refPath })

/-- The field updates of `updateContent`: overwrite name, properties and child
items from the incoming payload, stamp `changed`, and eagerly recompute
`publishedChildItems`. -/
def updateContentDoc (currentContent pageObj : Content) (now : Nat) : Content :=
  { currentContent with
      changed := some now
      name := pageObj.name
      properties := pageObj.properties
      childItems := pageObj.childItems
      publishedChildItems := getPublishedChildItems pageObj.childItems }

/-- Embeds `updateContent`: apply the field updates and persist. -/
def updateContent (currentContent pageObj : Content) (now : Nat) (db : CmsDB) :
    CmsDB × Content :=
  let updated := updateContentDoc currentContent pageObj now
  ({ db with contents := saveContent updated db.contents }, updated)

/-- Embeds `publishContent`: mark the content published and persist. -/
def publishContent (currentContent : Content) (now : Nat) (db : CmsDB) :
    CmsDB × Content :=
  let updated := { currentContent with isPublished := true, published := some now }
  ({ db with contents := saveContent updated db.contents }, updated)

/-- Embeds `createPageVersion`: insert a new version row, the spread of the content
with a freshly generated `_id` and a `contentId` back-reference.  Saving a new
document is an insert; a duplicate `_id` would be rejected by the unique index,
which the identity generator's freshness guarantee rules out. -/
def createPageVersion (currentContent : Content) (freshId : String) (db : CmsDB) :
    CmsDB × ContentVersion :=
  let newContentVersion : ContentVersion :=
    { _id := freshId, contentId := currentContent._id, snapshot := currentContent }
  ({ db with versions := db.versions ++ [newContentVersion] }, newContentVersion)

/-- Embeds `createPublishedContent`: `findOneAndDelete` any existing published row for
this id (the returned deleted row is unused; absence is tolerated), then insert
the new row built from the content spread plus `contentId` and
`contentVersionId`. -/
def createPublishedContent (currentContent : Content) (contentVersionId : String)
    (db : CmsDB) : CmsDB × PublishedContent :=
  let remaining := eraseFirstP (fun p => p._id == currentContent._id) db.published
  let newPublishedPage : PublishedContent :=
    { _id := currentContent._id
      contentId := currentContent._id
      contentVersionId := contentVersionId
      snapshot := currentContent }
  ({ db with published := remaining ++ [newPublishedPage] }, newPublishedPage)

/-- Embeds `executePublishContentFlow`: mark published, create the version row, then
create/replace the published row. -/
def executePublishContentFlow (currentContent : Content) (now : Nat)
    (freshId : String) (db : CmsDB) : CmsDB × PublishedContent :=
  let step1 := publishContent currentContent now db
  let step2 := createPageVersion step1.2 freshId step1.1
  createPublishedContent step1.2 step2.2._id step2.1

/-- JavaScript `>` between two nullable Dates: a Date compares by its numeric
value and null coerces to 0 (an undefined operand makes the comparison false,
which the 0 default also yields here since timestamps are naturals). -/
def jsDateGt (a b : Option Nat) : Bool :=
  decide (b.getD 0 < a.getD 0)

/-- Embeds `updateAndPublishContent`: load by id, apply the update when the payload is
dirty, then run the publish flow when the payload requests publication and the
content was never published or changed after its last publication. -/
def updateAndPublishContent (id : String) (contentObj : Content) (now : Nat)
    (freshId : String) (db : CmsDB) :
    CmsDB × Except JsErr (Content ⊕ PublishedContent) :=
  match getModelById (some id) db.contents with
  | .error e => (db, .error e)
  | .ok none => (db, .error .typeError)
  | .ok (some c0) =>
    let step1 := if contentObj.isDirty then updateContent c0 contentObj now db
                 else (db, c0)
    if contentObj.isPublished &&
        (step1.2.published.isNone || jsDateGt step1.2.changed step1.2.published) then
      let step2 := executePublishContentFlow step1.2 now freshId step1.1
      (step2.1, .ok (.inr step2.2))
    else (step1.1, .ok (.inl step1.2))

/-- The field updates of `softDeleteContent`: stamp `deleted`, set `isDeleted`. -/
def softDeleteContentDoc (c : Content) (now : Nat) : Content :=
  { c with deleted := some now, isDeleted := true }

/-- Embeds `softDeletePublishedContent`: `findOne` the published counterpart by id and
pass it to `softDeleteContent`.  When no counterpart exists the lookup yields
null and `softDeleteContent` assigns a property on null, which throws a
TypeError before any write happens. -/
def softDeletePublishedContent (currentContent : Content) (now : Nat)
    (db : CmsDB) : CmsDB × Except JsErr PublishedContent :=
  match db.published.find? (fun p => p._id == currentContent._id) with
  | none => (db, .error .typeError)
  | some page =>
    let saved := { page with snapshot := softDeleteContentDoc page.snapshot now }
    ({ db with published := savePublished saved db.published }, .ok saved)

/-- JavaScript template-literal stringification of a nullable string: null is
rendered as the four characters null. -/
def jsTemplateStr : Option String → String
  | none => "null"
  | some s => s

/-- The pattern text of `startWithParentPathRegExp` (without the anchor):
the template literal parentPath, id, comma. -/
def startWithParentPathPattern (currentContent : Content) : String :=
  jsTemplateStr currentContent.parentPath ++ currentContent._id ++ ","

/-- Whether a stored document matches the anchored `$regex` condition of
`softDeleteContentChildren`.  Ids and paths contain no regex metacharacters, so
the anchored regex is exactly a string-prefix test; a regex condition never
matches a document whose `parentPath` field is null. -/
def matchesChildPattern (currentContent d : Content) : Bool :=
  match d.parentPath with
  | none => false
  | some s => (startWithParentPathPattern currentContent).isPrefixOf s

/-- Embeds `softDeleteContentChildren`: `updateMany` setting `isDeleted`/`deleted` on
every document matching the anchored parentPath regex, returning the matched
count. -/
def softDeleteContentChildren (currentContent : Content) (now : Nat)
    (db : CmsDB) : CmsDB × Nat :=
  let n := db.contents.countP (fun d => matchesChildPattern currentContent d)
  ({ db with contents := db.contents.map (fun d =>
      if matchesChildPattern currentContent d then
        { d with isDeleted := true, deleted := some now }
      else d) }, n)

/-- Embeds `executeDeleteContentFlow`: load by id, then run the three sub-operations
that `Promise.all` issues concurrently.  They write to disjoint rows (the node's
own row, descendant rows, the published row), so the sequential composition here
applies exactly the writes of the concurrent original; when the published
sub-operation rejects, the joint promise rejects while the other two writes
persist. -/
def executeDeleteContentFlow (id : String) (now : Nat) (db : CmsDB) :
    CmsDB × Except JsErr (Content × Nat) :=
  match getModelById (some id) db.contents with
  | .error e => (db, .error e)
  | .ok none => (db, .error .typeError)
  | .ok (some currentContent) =>
    let deletedContent := softDeleteContentDoc currentContent now
    let db1 : CmsDB := { db with contents := saveContent deletedContent db.contents }
    let step2 := softDeleteContentChildren currentContent now db1
    let step3 := softDeletePublishedContent currentContent now step2.1
    match step3.2 with
    | .error e => (step3.1, .error e)
    | .ok _ => (step3.1, .ok (deletedContent, step2.2))

/-- A content value with every field at its neutral default, used to build the
concrete documents of the witnesses and counterexamples. -/
def baseContent : Content :=
  { _id := ""
    name := ""
    properties := ""
    parentId := none
    parentPath := none
    ancestors := []
    childItems := []
    publishedChildItems := []
    hasChildren := false
    isPublished := false
    isDirty := false
    created := none
    changed := none
    published := none
    deleted := none
    isDeleted := false }

/-- Root node of the anchored-prefix scenario: id 1, null parentPath. -/
def nodeA : Content := { baseContent with _id := "1", parentPath := none }

/-- Child of the root node: id 12, parentPath the comma-delimited root id. -/
def nodeB : Content := { baseContent with _id := "12", parentPath := some (",1,") }

/-- Sibling of the root node: id 2, null parentPath. -/
def nodeC : Content := { baseContent with _id := "2", parentPath := none }

/-- The content store holding the three scenario nodes. -/
def dbABC : CmsDB := { contents := [nodeA, nodeB, nodeC], versions := [], published := [] }

/-- An empty database. -/
def dbEmpty : CmsDB := { contents := [], versions := [], published := [] }

/-- A payload whose parentId references no existing content. -/
def danglingChild : Content := { baseContent with _id := "7", parentId := some ("dead") }

/-- A concrete non-root parent: id 5, parentPath ,9,, ancestors [9]. -/
def parentW : Content :=
  { baseContent with _id := "5", parentPath := some (",9,"), ancestors := ["9"] }

/-- A concrete draft content, never published, used by the publish witnesses. -/
def draftW : Content := { baseContent with _id := "4", name := "draft", changed := some 1 }

/-- A stale published row for the same id, to be replaced on publish. -/
def stalePubW : PublishedContent :=
  { _id := "4", contentId := "4", contentVersionId := "v0", snapshot := draftW }

/-- A database holding the draft content and its stale published row. -/
def dbPubW : CmsDB := { contents := [draftW], versions := [], published := [stalePubW] }

/-- A database holding only the draft content, with no published counterpart. -/
def dbNoPubW : CmsDB := { contents := [draftW], versions := [], published := [] }

/-- A concrete update payload requesting publication without edits. -/
def publishReqW : Content :=
  { baseContent with isPublished := true, isDirty := false }

/-- A concrete content whose hasChildren flag is already set. -/
def hasKidsW : Content := { baseContent with _id := "6", hasChildren := true }

/-- A constantly-false search finds nothing. -/
theorem find?_const_false (l : List α) : l.find? (fun _ => false) = none := by
  induction l with
  | nil => rfl
  | cons x xs ih => simp [List.find?, ih]

/-- When at most one element satisfies `pred`, nothing satisfying `pred` survives
erasing the first match. -/
theorem filter_eraseFirstP_of_countP_le_one (pred : α → Bool) (l : List α)
    (h : l.countP pred ≤ 1) : (eraseFirstP pred l).filter pred = [] := by
  induction l with
  | nil => rfl
  | cons x xs ih =>
    rw [List.countP_cons] at h
    by_cases hx : pred x = true
    · have hcount : xs.countP pred = 0 := by
        simp only [hx, if_pos] at h
        omega
      simp only [eraseFirstP, hx, if_pos]
      exact List.filter_eq_nil_iff.mpr (List.countP_eq_zero.mp hcount)
    · have hcount : xs.countP pred ≤ 1 := by
        simp only [hx, if_false] at h
        omega
      simp only [eraseFirstP, hx, if_false, Bool.false_eq_true]
      rw [List.filter_cons_of_neg hx]
      exact ih hcount

/-- Claim C1: evaluation of the code at the spec's prefix-match scenario.  For
the root node A (id 1, null parentPath), the delete flow's descendant bulk
update stringifies the null parentPath into the pattern, producing the anchored
regex text null1,.  Child B (id 12, parentPath ,1,) therefore does NOT match and
is left with isDeleted unchanged (false), contradicting the claim that B is
marked deleted; sibling C is also untouched, and the matched count is 0. -/
theorem softDeleteContentChildren_root_misses_child :
    (softDeleteContentChildren nodeA 5 dbABC).1.contents.map
        (fun d => (d._id, d.isDeleted)) =
      [("1", false), ("12", false), ("2", false)] ∧
    startWithParentPathPattern nodeA = "null1," ∧
    matchesChildPattern nodeA nodeB = false ∧
    matchesChildPattern nodeA nodeC = false ∧
    (softDeleteContentChildren nodeA 5 dbABC).2 = 0 := by
  refine ⟨rfl, rfl, rfl, rfl, rfl⟩

/-- Claim C3: a content created under a non-null parent (whose parentPath is a
well-formed path value, i.e. not the empty string, which the data model never
produces) gets ancestors equal to the parent's ancestors with the parent's id
appended, and parentPath equal to the parent's parentPath (defaulting to a
single comma when null) followed by the parent's id and a trailing comma; a
content created with no parent gets a null parentPath and empty ancestors. -/
theorem createContent_hierarchy (c parent : Content) (now : Nat)
    (hwf : parent.parentPath ≠ some ("")) :
    ((createContent c (some parent) now).ancestors =
        parent.ancestors ++ [parent._id] ∧
      (createContent c (some parent) now).parentPath =
        some (parent.parentPath.getD (",") ++ parent._id ++ ",")) ∧
    ((createContent c none now).parentPath = none ∧
      (createContent c none now).ancestors = []) := by
  refine ⟨⟨rfl, ?_⟩, rfl, rfl⟩
  cases hp : parent.parentPath with
  | none => simp [createContent, hp]
  | some s =>
    have hs : s ≠ "" := by
      intro h
      exact hwf (by rw [hp, h])
    simp [createContent, hp, hs]

/-- Witness for C3 at a concrete parent (id 5, parentPath ,9,, ancestors [9]). -/
theorem createContent_hierarchy_witness :
    ((createContent baseContent (some parentW) 7).ancestors =
        parentW.ancestors ++ [parentW._id] ∧
      (createContent baseContent (some parentW) 7).parentPath =
        some (parentW.parentPath.getD (",") ++ parentW._id ++ ",")) ∧
    ((createContent baseContent none 7).parentPath = none ∧
      (createContent baseContent none 7).ancestors = []) :=
  createContent_hierarchy baseContent parentW 7 (by decide)

/-- Claim C5: the published-form rewrite of childItems preserves each element's
content reference and the list's order and length (the first two conjuncts: the
projections of the output are the projections of the input, elementwise), sends
the kinds page, block, media to publishedPage, publishedBlock, publishedMedia,
leaves any other kind unchanged, and on the concrete kinds [page, block, widget]
yields [publishedPage, publishedBlock, widget]. -/
theorem getPublishedChildItems_rewrite (items : List RefContent) :
    (getPublishedChildItems items).map RefContent.content =
      items.map RefContent.content ∧
    (getPublishedChildItems items).map RefContent.refPath =
      items.map (fun it => getPublishedRefPath it.refPath) ∧
    getPublishedRefPath cmsPage = cmsPublishedPage ∧
    getPublishedRefPath cmsBlock = cmsPublishedBlock ∧
    getPublishedRefPath cmsMedia = cmsPublishedMedia ∧
    (∀ r, r ≠ cmsPage → r ≠ cmsBlock → r ≠ cmsMedia → getPublishedRefPath r = r) ∧
    getPublishedChildItems
        [{ content := "X", refPath := cmsPage }, { content := "Y", refPath := cmsBlock },
         { content := "Z", refPath := "widget" }] =
      [{ content := "X", refPath := cmsPublishedPage },
       { content := "Y", refPath := cmsPublishedBlock },
       { content := "Z", refPath := "widget" }] := by
  refine ⟨?_, ?_, rfl, rfl, rfl, ?_, rfl⟩
  · simp [getPublishedChildItems]
  · simp [getPublishedChildItems]
  · intro r h1 h2 h3
    simp [getPublishedRefPath, h1, h2, h3]

/-- Witness for C5: an unknown kind passes through unchanged. -/
theorem getPublishedChildItems_rewrite_witness :
    getPublishedRefPath ("widget") = "widget" :=
  (getPublishedChildItems_rewrite []).2.2.2.2.2.1 ("widget") (by decide) (by decide)
    (by decide)

/-- Claim C8: updateHasChildren is total on its argument and idempotent: a null
argument returns false with no write and no failure; a node already flagged
returns true with no write (so its changed timestamp is untouched); a node not
yet flagged is persisted with hasChildren set, a fresh changed timestamp, and
true is returned. -/
theorem updateHasChildren_idempotent (c : Content) (now : Nat) :
    updateHasChildren none now = (none, false) ∧
    (c.hasChildren = true → updateHasChildren (some c) now = (none, true)) ∧
    (c.hasChildren = false → updateHasChildren (some c) now =
      (some { c with changed := some now, hasChildren := true }, true)) := by
  refine ⟨rfl, ?_, ?_⟩
  · intro h
    simp [updateHasChildren, h]
  · intro h
    simp [updateHasChildren, h]

/-- Witness for C8: a second call on an already-flagged node returns true and
performs no write. -/
theorem updateHasChildren_idempotent_witness :
    updateHasChildren (some hasKidsW) 9 = (none, true) :=
  (updateHasChildren_idempotent hasKidsW 9).2.1 rfl

/-- Claim C9: a null, undefined or empty id is normalized to a null query key,
and since no stored document carries a null _id, both populated reads return
not-found instead of matching any existing row. -/
theorem getPopulated_falsy_id_not_found (id : JsStr) (db : CmsDB)
    (h : jsFalsy id = true) :
    getPopulatedContentById id db = none ∧
    getPopulatedPublishedContentById id db = none := by
  constructor
  · simp [getPopulatedContentById, h, mongoFindOneContent, find?_const_false]
  · simp [getPopulatedPublishedContentById, h, mongoFindOnePublished, find?_const_false]

/-- Witness for C9: the empty id finds nothing in a non-empty store. -/
theorem getPopulated_falsy_id_not_found_witness :
    getPopulatedContentById (JsStr.str ("")) dbABC = none ∧
    getPopulatedPublishedContentById (JsStr.str ("")) dbABC = none :=
  getPopulated_falsy_id_not_found (JsStr.str ("")) dbABC (by decide)

/-- Claim C2: one publish call appends exactly one new ContentVersion row — the
snapshot of the just-published content under the freshly generated id, with a
contentId back-reference — and afterwards exactly one live PublishedContent row
exists for the content id: the first (hence, ids being unique keys, only) stale
row is deleted, tolerating absence, and the inserted row carries the
contentVersionId of the version just created.  The hypotheses state the
identity generator's freshness guarantee and the unique-key invariant of the
published collection (at most one row per id). -/
theorem executePublishContentFlow_one_version_one_published
    (currentContent : Content) (now : Nat) (freshId : String) (db : CmsDB)
    (_hfresh : ∀ v ∈ db.versions, v._id ≠ freshId)
    (huniq : db.published.countP (fun p => p._id == currentContent._id) ≤ 1) :
    (executePublishContentFlow currentContent now freshId db).1.versions =
      db.versions ++
        [{ _id := freshId, contentId := currentContent._id,
           snapshot :=
             { currentContent with isPublished := true, published := some now } }] ∧
    (executePublishContentFlow currentContent now freshId db).1.published.filter
        (fun p => p._id == currentContent._id) =
      [(executePublishContentFlow currentContent now freshId db).2] ∧
    (executePublishContentFlow currentContent now freshId db).2.contentVersionId =
      freshId ∧
    (executePublishContentFlow currentContent now freshId db).2.contentId =
      currentContent._id ∧
    (executePublishContentFlow currentContent now freshId db).2._id =
      currentContent._id := by
  refine ⟨rfl, ?_, rfl, rfl, rfl⟩
  show (eraseFirstP (fun p => p._id == currentContent._id) db.published ++
      [(executePublishContentFlow currentContent now freshId db).2]).filter
      (fun p => p._id == currentContent._id) =
    [(executePublishContentFlow currentContent now freshId db).2]
  rw [List.filter_append, filter_eraseFirstP_of_countP_le_one _ _ huniq]
  simp [executePublishContentFlow, publishContent, createPageVersion,
    createPublishedContent]

/-- Witness for C2: publishing the concrete draft (id 4) against a store with a
stale published row appends one version and leaves one published row. -/
theorem executePublishContentFlow_one_version_one_published_witness :
    (executePublishContentFlow draftW 3 "v1" dbPubW).1.versions =
      dbPubW.versions ++
        [{ _id := "v1", contentId := draftW._id,
           snapshot := { draftW with isPublished := true, published := some 3 } }] ∧
    (executePublishContentFlow draftW 3 "v1" dbPubW).1.published.filter
        (fun p => p._id == draftW._id) =
      [(executePublishContentFlow draftW 3 "v1" dbPubW).2] ∧
    (executePublishContentFlow draftW 3 "v1" dbPubW).2.contentVersionId = "v1" ∧
    (executePublishContentFlow draftW 3 "v1" dbPubW).2.contentId = draftW._id ∧
    (executePublishContentFlow draftW 3 "v1" dbPubW).2._id = draftW._id :=
  executePublishContentFlow_one_version_one_published draftW 3 "v1" dbPubW
    (by decide) (by decide)

/-- Claim C7: when no content with the given id exists, both
updateAndPublishContent and executeDeleteContentFlow fail with the (spec-
modelled) NotFound error of the base-service lookup, leaving every store
untouched. -/
theorem flows_notFound_when_id_absent (id : String) (contentObj : Content)
    (now : Nat) (freshId : String) (db : CmsDB)
    (h : db.contents.find? (fun d => d._id == id) = none) :
    updateAndPublishContent id contentObj now freshId db = (db, .error .notFound) ∧
    executeDeleteContentFlow id now db = (db, .error .notFound) := by
  constructor
  · simp [updateAndPublishContent, getModelById, h]
  · simp [executeDeleteContentFlow, getModelById, h]

/-- Witness for C7: a lookup in the empty store fails with NotFound and writes
nothing. -/
theorem flows_notFound_when_id_absent_witness :
    updateAndPublishContent ("9") baseContent 2 ("v9") dbEmpty =
      (dbEmpty, .error .notFound) ∧
    executeDeleteContentFlow ("9") 2 dbEmpty = (dbEmpty, .error .notFound) :=
  flows_notFound_when_id_absent ("9") baseContent 2 ("v9") dbEmpty (by decide)

/-- Counterexample to claim C10 as stated: with the spec-modelled base-service
lookup, creating a content whose parentId references no existing content does
NOT silently persist a root node — the flow fails with NotFound and writes
nothing. -/
theorem executeCreateContentFlow_dangling_parent_fails :
    executeCreateContentFlow danglingChild 5 dbEmpty = (dbEmpty, .error .notFound) ∧
    (executeCreateContentFlow danglingChild 5 dbEmpty).1.contents = [] := by
  refine ⟨rfl, rfl⟩

/-- Claim C10 (amended): under the spec-modelled parent lookup, a non-null
parentId that references no existing content makes executeCreateContentFlow
fail with NotFound, leaving the store untouched; only a null parentId yields a
silently persisted root node with null parentPath and empty ancestors. -/
theorem executeCreateContentFlow_parent_lookup (content : Content) (now : Nat)
    (db : CmsDB) :
    (∀ pid, content.parentId = some pid →
      db.contents.find? (fun d => d._id == pid) = none →
      executeCreateContentFlow content now db = (db, .error .notFound)) ∧
    (content.parentId = none →
      executeCreateContentFlow content now db =
        ({ db with contents := saveContent (createContent content none now) db.contents },
         .ok (createContent content none now)) ∧
      (createContent content none now).parentPath = none ∧
      (createContent content none now).ancestors = []) := by
  constructor
  · intro pid hpid hfind
    simp [executeCreateContentFlow, getModelById, hpid, hfind]
  · intro hroot
    refine ⟨?_, rfl, rfl⟩
    simp [executeCreateContentFlow, getModelById, hroot]

/-- Witness for C10 (amended): a null parentId persists a root node. -/
theorem executeCreateContentFlow_parent_lookup_witness :
    executeCreateContentFlow baseContent 5 dbEmpty =
      ({ dbEmpty with
          contents := saveContent (createContent baseContent none 5) dbEmpty.contents },
       .ok (createContent baseContent none 5)) ∧
    (createContent baseContent none 5).parentPath = none ∧
    (createContent baseContent none 5).ancestors = [] :=
  (executeCreateContentFlow_parent_lookup baseContent 5 dbEmpty).2 rfl

/-- An element of a saved store that carries the saved document's id is the
saved document itself (ids are unique keys, so the save replaced any such row). -/
theorem mem_saveContent_id_eq (c a : Content) (l : List Content)
    (ha : a ∈ saveContent c l) (hid : a._id = c._id) : a = c := by
  unfold saveContent at ha
  by_cases h : l.any (fun d => d._id == c._id) = true
  · rw [if_pos h] at ha
    obtain ⟨d, hd, hda⟩ := List.mem_map.mp ha
    by_cases hdc : (d._id == c._id) = true
    · rw [if_pos hdc] at hda
      exact hda.symm
    · rw [if_neg hdc] at hda
      subst hda
      exact absurd (beq_iff_eq.mpr hid) hdc
  · rw [if_neg h] at ha
    rcases List.mem_append.mp ha with hl | hr
    · refine absurd (?_ : l.any (fun d => d._id == c._id) = true) h
      exact List.any_eq_true.mpr ⟨a, hl, beq_iff_eq.mpr hid⟩
    · simpa using hr

/-- Counterexample to claim C6 as stated: deleting the concrete content (id 4)
that has no PublishedContent counterpart does not complete successfully — the
published sub-operation dereferences the null lookup result and the flow
rejects with a TypeError. -/
theorem executeDeleteContentFlow_no_published_rejects :
    (executeDeleteContentFlow ("4") 5 dbNoPubW).2 = .error .typeError := rfl

/-- Claim C6 (amended): executeDeleteContentFlow on a content with no
PublishedContent counterpart does NOT tolerate absence: the published
sub-operation throws a TypeError on the null lookup result, so the flow fails
(the published store untouched), while the concurrently issued content and
descendant sub-operations still apply their writes — every surviving row that
is the node itself or matches the descendant pattern ends up soft-deleted. -/
theorem executeDeleteContentFlow_missing_published (id : String) (now : Nat)
    (db : CmsDB) (cur : Content)
    (hfind : db.contents.find? (fun d => d._id == id) = some cur)
    (hpub : db.published.find? (fun p => p._id == cur._id) = none) :
    (executeDeleteContentFlow id now db).2 = .error .typeError ∧
    (executeDeleteContentFlow id now db).1.published = db.published ∧
    (∀ d ∈ (executeDeleteContentFlow id now db).1.contents,
      d._id = cur._id ∨ matchesChildPattern cur d = true → d.isDeleted = true) := by
  have hmodel : getModelById (some id) db.contents = .ok (some cur) := by
    simp [getModelById, hfind]
  have hflow : executeDeleteContentFlow id now db =
      ((softDeleteContentChildren cur now
          { db with contents := saveContent (softDeleteContentDoc cur now) db.contents }).1,
       .error .typeError) := by
    simp only [executeDeleteContentFlow, hmodel, softDeleteContentChildren,
      softDeletePublishedContent]
    rw [hpub]
  rw [hflow]
  refine ⟨rfl, rfl, ?_⟩
  intro d hd hcond
  simp only [softDeleteContentChildren] at hd
  obtain ⟨a, ha, rfl⟩ := List.mem_map.mp hd
  by_cases hm : matchesChildPattern cur a = true
  · simp [hm]
  · rw [if_neg hm]
    rw [if_neg hm] at hcond
    rcases hcond with hids | hmm
    · have : a = softDeleteContentDoc cur now :=
        mem_saveContent_id_eq (softDeleteContentDoc cur now) a db.contents ha hids
      rw [this]
      rfl
    · exact absurd hmm hm

/-- Witness for C6 (amended) at the concrete store: the flow rejects with a
TypeError while the published store stays empty. -/
theorem executeDeleteContentFlow_missing_published_witness :
    (executeDeleteContentFlow ("4") 6 dbNoPubW).2 = .error .typeError ∧
    (executeDeleteContentFlow ("4") 6 dbNoPubW).1.published = dbNoPubW.published ∧
    (∀ d ∈ (executeDeleteContentFlow ("4") 6 dbNoPubW).1.contents,
      d._id = draftW._id ∨ matchesChildPattern draftW d = true →
        d.isDeleted = true) :=
  executeDeleteContentFlow_missing_published ("4") 6 dbNoPubW draftW (by decide)
    (by decide)

/-- Claim C4: in updateAndPublishContent, the publish sub-flow runs (observable
as the call returning the new PublishedContent) if and only if the incoming
payload requests publication AND the current content — after the dirty update,
when one was requested — has never been published or has a changed timestamp
strictly greater than its published timestamp (jsDateGt, with JavaScript's
null-to-0 coercion); when it does run exactly one version row is appended, and
otherwise neither the version store nor the published store is written. -/
theorem updateAndPublishContent_publish_iff (id : String)
    (contentObj c0 cur : Content) (now : Nat) (freshId : String) (db : CmsDB)
    (hfind : db.contents.find? (fun d => d._id == id) = some c0)
    (hcur : cur = if contentObj.isDirty then updateContentDoc c0 contentObj now
                  else c0) :
    ((∃ p, (updateAndPublishContent id contentObj now freshId db).2 =
        .ok (.inr p)) ↔
      (contentObj.isPublished = true ∧
        (cur.published = none ∨ jsDateGt cur.changed cur.published = true))) ∧
    ((contentObj.isPublished = true ∧
        (cur.published = none ∨ jsDateGt cur.changed cur.published = true)) →
      ∃ v, (updateAndPublishContent id contentObj now freshId db).1.versions =
        db.versions ++ [v]) ∧
    (¬(contentObj.isPublished = true ∧
        (cur.published = none ∨ jsDateGt cur.changed cur.published = true)) →
      (updateAndPublishContent id contentObj now freshId db).1.versions =
          db.versions ∧
        (updateAndPublishContent id contentObj now freshId db).1.published =
          db.published) := by
  have hmodel : getModelById (some id) db.contents = .ok (some c0) := by
    simp [getModelById, hfind]
  have hcond : (contentObj.isPublished &&
      (cur.published.isNone || jsDateGt cur.changed cur.published)) = true ↔
      (contentObj.isPublished = true ∧
        (cur.published = none ∨ jsDateGt cur.changed cur.published = true)) := by
    simp [Bool.and_eq_true, Bool.or_eq_true, Option.isNone_iff_eq_none]
  by_cases hd : contentObj.isDirty = true
  · rw [if_pos hd] at hcur
    subst hcur
    by_cases hb : (contentObj.isPublished &&
        ((updateContentDoc c0 contentObj now).published.isNone ||
          jsDateGt (updateContentDoc c0 contentObj now).changed
            (updateContentDoc c0 contentObj now).published)) = true
    · have hrhs := hcond.mp hb
      have hflow : updateAndPublishContent id contentObj now freshId db =
          ((executePublishContentFlow (updateContentDoc c0 contentObj now) now
              freshId (updateContent c0 contentObj now db).1).1,
           .ok (.inr (executePublishContentFlow (updateContentDoc c0 contentObj now)
              now freshId (updateContent c0 contentObj now db).1).2)) := by
        simp only [updateAndPublishContent, hmodel, hd, if_pos, updateContent]
        rw [if_pos hb]
      rw [hflow]
      refine ⟨Iff.intro (fun _ => hrhs) (fun _ => ⟨_, rfl⟩), fun _ => ⟨_, rfl⟩,
        fun hn => absurd hrhs hn⟩
    · have hrhs := (not_congr hcond).mp hb
      have hflow : updateAndPublishContent id contentObj now freshId db =
          ((updateContent c0 contentObj now db).1,
           .ok (.inl (updateContentDoc c0 contentObj now))) := by
        simp only [updateAndPublishContent, hmodel, hd, if_pos, updateContent]
        rw [if_neg hb]
      rw [hflow]
      refine ⟨Iff.intro ?_ (fun h => absurd h hrhs), fun h => absurd h hrhs,
        fun _ => ⟨rfl, rfl⟩⟩
      rintro ⟨p, hp⟩
      exact absurd hp (by simp)
  · rw [if_neg hd] at hcur
    subst hcur
    by_cases hb : (contentObj.isPublished &&
        (cur.published.isNone || jsDateGt cur.changed cur.published)) = true
    · have hrhs := hcond.mp hb
      have hflow : updateAndPublishContent id contentObj now freshId db =
          ((executePublishContentFlow cur now freshId db).1,
           .ok (.inr (executePublishContentFlow cur now freshId db).2)) := by
        simp [updateAndPublishContent, hmodel, hd, hb]
      rw [hflow]
      refine ⟨Iff.intro (fun _ => hrhs) (fun _ => ⟨_, rfl⟩), fun _ => ⟨_, rfl⟩,
        fun hn => absurd hrhs hn⟩
    · have hrhs := (not_congr hcond).mp hb
      have hflow : updateAndPublishContent id contentObj now freshId db =
          (db, .ok (.inl cur)) := by
        simp [updateAndPublishContent, hmodel, hd, hb]
      rw [hflow]
      refine ⟨Iff.intro ?_ (fun h => absurd h hrhs), fun h => absurd h hrhs,
        fun _ => ⟨rfl, rfl⟩⟩
      rintro ⟨p, hp⟩
      exact absurd hp (by simp)

/-- Witness for C4: a publish request on the concrete never-published draft
runs the publish sub-flow. -/
theorem updateAndPublishContent_publish_iff_witness :
    ((∃ p, (updateAndPublishContent ("4") publishReqW 8 ("v2") dbNoPubW).2 =
        .ok (.inr p)) ↔
      (publishReqW.isPublished = true ∧
        (draftW.published = none ∨ jsDateGt draftW.changed draftW.published = true))) ∧
    ((publishReqW.isPublished = true ∧
        (draftW.published = none ∨ jsDateGt draftW.changed draftW.published = true)) →
      ∃ v, (updateAndPublishContent ("4") publishReqW 8 ("v2") dbNoPubW).1.versions =
        dbNoPubW.versions ++ [v]) ∧
    (¬(publishReqW.isPublished = true ∧
        (draftW.published = none ∨ jsDateGt draftW.changed draftW.published = true)) →
      (updateAndPublishContent ("4") publishReqW 8 ("v2") dbNoPubW).1.versions =
          dbNoPubW.versions ∧
        (updateAndPublishContent ("4") publishReqW 8 ("v2") dbNoPubW).1.published =
          dbNoPubW.published) :=
  updateAndPublishContent_publish_iff ("4") publishReqW draftW draftW 8 ("v2")
    dbNoPubW (by decide) (by decide)
